import Mathlib

/-!
# metavision_viewer: session lifecycle and control loop

A shallow embedding of `sdk/modules/driver/cpp/apps/metavision_viewer/metavision_viewer.cpp`.

* The locals of `main` that the control loop reads and writes (`do_retry`, `recording`,
  `is_roi_set`) together with the running flag of the camera form `State`.
* Every call made on the `Metavision::Camera` object is appended to `State.log`, so a C++
  statement becomes a function `State → State`.
* What the outside world does (key presses, runtime-error notifications, a session that ends
  by itself, an open call that throws) is supplied as data: `Cycle` and `Attempt`.
* Logging (`MV_LOG_*`) and the OpenCV window calls do not touch the camera and are not recorded.
-/

namespace MetavisionViewer

/-! ## Keys -/

/-- Key code of Escape: `static const int ESCAPE = 27;`. -/
def ESCAPE : Int := 27

/-- Key code of the space bar: `static const int SPACE = 32;`. -/
def SPACE : Int := 32

/-- Key code of the character literal q (ASCII 113). -/
def KEY_q : Int := 113

/-- Key code of the character literal r (ASCII 114). -/
def KEY_r : Int := 114

/-- Key code of the character literal h (ASCII 104). -/
def KEY_h : Int := 104

/-! ## Requests made to the driver -/

/-- A call made on (or producing) the `Metavision::Camera` of one iteration. -/
inductive Request where
  | from_file (path : String)
  | from_serial (serial : String)
  | from_first_available
  | biases_set_from_file (path : String)
  | roi_set (x y width height : Nat)
  | roi_unset
  | add_runtime_error_callback
  | cd_add_callback
  | start
  | stop
  | start_recording (path : String)
  | stop_recording
  | cd_remove_callback (id : Int)
  deriving DecidableEq, Repr

/-- The three open calls of the driver. -/
def Request.is_open : Request → Bool
  | .from_file _ => true
  | .from_serial _ => true
  | .from_first_available => true
  | _ => false

/-- The two capture-to-file requests. -/
def Request.is_capture : Request → Bool
  | .start_recording _ => true
  | .stop_recording => true
  | _ => false

/-- What `main` does, in program order. `cam` numbers the `Metavision::Camera camera;` objects
declared by the successive iterations of the outer do-while. -/
inductive Event where
  | construct (cam : Nat)
  | request (cam : Nat) (r : Request)
  | destroy (cam : Nat)
  | sleep_seconds (n : Nat)
  deriving DecidableEq, Repr

/-- The camera object an event is about (a sleep is about none). -/
def Event.cam : Event → Option Nat
  | .construct c => some c
  | .request c _ => some c
  | .destroy c => some c
  | .sleep_seconds _ => none

/-- An event that is one of the open calls. -/
def Event.is_open : Event → Bool
  | .request _ r => r.is_open
  | _ => false

/-! ## Command line -/

/-- The outcome of `po::store` / `po::notify` on the command line. `roi` is `none` when
`vm.count("roi")` is zero; `output_raw_file` is `none` when the default value is used. -/
structure CommandLine where
  parse_error : Bool
  help : Bool
  serial : String
  biases_file : String
  in_raw_file_path : String
  output_raw_file : Option String
  roi : Option (List Nat)
  record_only : Bool
  deriving DecidableEq, Repr

/-- The variables of `main` that stay fixed once the outer loop is entered. -/
structure Config where
  serial : String
  biases_file : String
  in_raw_file_path : String
  out_raw_file_path : String
  roi : List Nat
  record_only : Bool
  deriving DecidableEq, Repr

/-- The initialiser of `raw_filepath_w_date` is a comma expression,
`("%s-data.raw", str_time.c_str())`, whose value is its right operand. -/
def raw_filepath_w_date (str_time : String) : String := str_time

/-- The braced list `{roi[0], roi[1], roi[2], roi[3]}` handed to `camera.roi().set`. -/
def roi_request (roi : List Nat) : Request :=
  .roi_set (roi.getD 0 0) (roi.getD 1 0) (roi.getD 2 0) (roi.getD 3 0)

/-! ## State of one session -/

/-- The mutable variables seen by the control loop, the running flag of the camera and the
requests made so far on the camera of this iteration. -/
structure State where
  do_retry : Bool
  recording : Bool
  is_roi_set : Bool
  running : Bool
  log : List Request
  deriving DecidableEq, Repr

/-- Record a call on the camera. -/
def State.call (s : State) (r : Request) : State :=
  { s with log := s.log ++ [r] }

/-- Modelled from the spec: `Camera::start` of the driver module, which is not part of the
viewer source; it starts event streaming and the session is marked running. -/
def camera_start (s : State) : State :=
  { s.call .start with running := true }

/-- Modelled from the spec: `Camera::stop` of the driver module, which is not part of the
viewer source; it stops event streaming and the session is no longer marked running. -/
def camera_stop (s : State) : State :=
  { s.call .stop with running := false }

/-- The lambda registered by `camera.add_runtime_error_callback`: it logs and sets
`do_retry = true`. -/
def runtime_error_callback (s : State) : State :=
  { s with do_retry := true }

/-! ## Key dispatch -/

/-- The statements under `case ESCAPE:` of the display-mode switch. -/
def case_ESCAPE (s : State) : State :=
  { camera_stop s with do_retry := false }

/-- The statements under `case 'q':` of the display-mode switch; there is no `break`, so
control continues into `case ESCAPE:`. -/
def case_q (s : State) : State :=
  let s1 := if s.recording then { s.call .stop_recording with recording := false } else s
  case_ESCAPE s1

/-- The statements under `case SPACE:`. -/
def case_SPACE (cfg : Config) (s : State) : State :=
  let s1 := if !s.recording then s.call (.start_recording cfg.out_raw_file_path)
            else s.call .stop_recording
  { s1 with recording := !s1.recording }

/-- The statements under `case 'r':`. -/
def case_r (cfg : Config) (s : State) : State :=
  if cfg.roi.length = 0 then s
  else
    let s1 := if !s.is_roi_set then s.call (roi_request cfg.roi) else s.call .roi_unset
    { s1 with is_roi_set := !s1.is_roi_set }

/-- The switch on the key in display mode (`!record_only`). -/
def switch_display (cfg : Config) (key : Int) (s : State) : State :=
  if key = KEY_q then case_q s
  else if key = ESCAPE then case_ESCAPE s
  else if key = SPACE then case_SPACE cfg s
  else if key = KEY_r then case_r cfg s
  else if key = KEY_h then s
  else s

/-- The switch on the key in record-only mode: a single `case 'q':`. -/
def switch_record_only (key : Int) (s : State) : State :=
  if key = KEY_q then
    if s.recording then { s.call .stop_recording with recording := false } else s
  else s

/-! ## Control loop -/

/-- What the outside world does during one pass through the body of
`while (camera.is_running())`: whether the runtime-error callback fires before the key of this
pass is dispatched (that is, at any time since the key of the previous pass was dispatched),
the value returned by `process_ui_for(33)`, and whether the session has stopped running by
itself when the loop condition is evaluated next. A notification that arrives after the last
key dispatch of a session is `Attempt.err_late`. -/
structure Cycle where
  err : Bool
  key : Int
  ends : Bool
  deriving DecidableEq, Repr

/-- One pass through the body of `while (camera.is_running())`. The callback stays registered
for the whole life of the camera: a notification after the key dispatch of this pass is the
`err` of the next pass or, when this pass is the last, `Attempt.err_late`. -/
def cycle (cfg : Config) (c : Cycle) (s : State) : State :=
  let s1 := if c.err then runtime_error_callback s else s
  let s2 := if !cfg.record_only then switch_display cfg c.key s1 else switch_record_only c.key s1
  if c.ends then { s2 with running := false } else s2

/-- The loop `while (camera.is_running()) ...` run on the cycles the outside world supplies.
The loop has exited exactly when the resulting state is not running; a running result means
the supplied cycles are used up and the loop is still going. -/
def control_loop (cfg : Config) : List Cycle → State → State
  | [], s => s
  | c :: cs, s => if s.running then control_loop cfg cs (cycle cfg c s) else s

/-! ## One iteration of the outer do-while -/

/-- What the outside world does during one iteration of the outer loop: which driver call
throws a `CameraException`, the callback id returned by `camera.cd().add_callback` (an
unsigned integer), the cycles of the control loop, and whether the runtime-error callback,
which stays registered until the camera is destroyed, fires after the last key dispatch of the
control loop and before the condition `while (do_retry)` is evaluated. -/
structure Attempt where
  open_throws : Bool
  biases_throws : Bool
  roi_throws : Bool
  cb_id : Nat
  cycles : List Cycle
  err_late : Bool
  deriving DecidableEq, Repr

/-- The conversion of the id returned by `camera.cd().add_callback` to the `int` that
`setup_cd_callback_and_window` returns and `cd_events_cb_id` holds: the value modulo `2^32`
read as a signed 32-bit integer. -/
def narrow_to_int (id : Nat) : Int :=
  if id % 2 ^ 32 < 2 ^ 31 then ((id % 2 ^ 32 : Nat) : Int)
  else ((id % 2 ^ 32 : Nat) : Int) - 2 ^ 32

/-- The two try blocks that open the camera, reached once the serial / input-file check has
passed: the requests made and the resulting `camera_is_opened`. A throwing call is still
made; it skips the rest of its try block. -/
def open_camera (cfg : Config) (a : Attempt) : List Request × Bool :=
  if cfg.in_raw_file_path ≠ "" then
    ([.from_file cfg.in_raw_file_path], !a.open_throws)
  else
    let l0 : List Request :=
      [if cfg.serial ≠ "" then .from_serial cfg.serial else .from_first_available]
    if a.open_throws then (l0, false)
    else
      let l1 := if cfg.biases_file ≠ "" then l0 ++ [.biases_set_from_file cfg.biases_file] else l0
      if cfg.biases_file ≠ "" ∧ a.biases_throws then (l1, false)
      else
        let l2 := if cfg.roi ≠ [] then l1 ++ [roi_request cfg.roi] else l1
        if cfg.roi ≠ [] ∧ a.roi_throws then (l2, false)
        else (l2, true)

/-- The value of `int cd_events_cb_id` before the control loop: `0`, replaced in display mode
by the `int` returned by `setup_cd_callback_and_window`. -/
def cd_events_cb_id (cfg : Config) (a : Attempt) : Int :=
  if !cfg.record_only then narrow_to_int a.cb_id else 0

/-- From the successful open up to the first evaluation of `camera.is_running()`: register the
runtime-error callback, in display mode subscribe to the CD events, start streaming,
initialise `recording` and `is_roi_set`, and in record-only mode start the capture. -/
def session_start (cfg : Config) (do_retry : Bool) (opened : List Request) : State :=
  let s0 : State :=
    { do_retry := do_retry, recording := false, is_roi_set := true, running := false,
      log := opened }
  let s1 := s0.call .add_runtime_error_callback
  let s2 := if !cfg.record_only then s1.call .cd_add_callback else s1
  let s3 := camera_start s2
  let s4 := { s3 with recording := false, is_roi_set := true }
  if cfg.record_only then
    if !s4.recording then
      { s4.call (.start_recording cfg.out_raw_file_path) with recording := true }
    else s4.call .stop_recording
  else s4

/-- The state when the control loop stops consuming cycles. -/
def session_loop (cfg : Config) (a : Attempt) (do_retry : Bool) (opened : List Request) :
    State :=
  control_loop cfg a.cycles (session_start cfg do_retry opened)

/-- The statements after the control loop: `if (cd_events_cb_id >= 0)` remove the CD callback
of that id, then stop the camera. -/
def teardown (cfg : Config) (a : Attempt) (s : State) : State :=
  let s1 := if cd_events_cb_id cfg a ≥ 0 then s.call (.cd_remove_callback (cd_events_cb_id cfg a))
            else s
  camera_stop s1

/-- How one iteration of the do-while body is left. -/
inductive Leave where
  /-- A return statement with its value. -/
  | ret (code : Int)
  /-- The loop condition `while (do_retry)` is evaluated next, with this value of `do_retry`
  (end of the body, or `continue`). -/
  | cond (do_retry : Bool)
  /-- The control loop is still running: the supplied cycles are used up. -/
  | running
  deriving DecidableEq, Repr

/-- Tag the requests of one iteration with its camera. -/
def on_cam (cam : Nat) (l : List Request) : List Event :=
  l.map (Event.request cam)

/-- The body of the outer do-while for camera number `cam`, entered with `do_retry`. The
camera is destroyed when its scope is left, also by `return` and `continue`. The value of
`do_retry` read by `while (do_retry)` is the one left by the control loop, set again when the
runtime-error callback has fired since the last key dispatch (`err_late`). -/
def body (cfg : Config) (a : Attempt) (cam : Nat) (do_retry : Bool) : List Event × Leave :=
  if cfg.in_raw_file_path ≠ "" ∧ cfg.serial ≠ "" then
    ([.construct cam, .destroy cam], .ret 1)
  else
    let o := open_camera cfg a
    if !o.2 then
      if do_retry then
        ([.construct cam] ++ on_cam cam o.1 ++ [.sleep_seconds 1, .destroy cam], .cond do_retry)
      else
        ([.construct cam] ++ on_cam cam o.1 ++ [.destroy cam], .ret (-1))
    else
      let s := session_loop cfg a do_retry o.1
      if s.running then
        ([.construct cam] ++ on_cam cam s.log, .running)
      else
        let s1 := teardown cfg a s
        let s2 := if a.err_late then runtime_error_callback s1 else s1
        ([.construct cam] ++ on_cam cam s2.log ++ [.destroy cam], .cond s2.do_retry)

/-- The loop `do ... while (do_retry);` followed by `return 0;`, run on the attempts the
outside world supplies. The exit code is `none` when the supplied attempts (or the cycles of
the last one) are used up while the program is still going; with no attempt left the iteration
still declares its camera and makes the serial / input-file check, which need no outside data. -/
def do_while (cfg : Config) : List Attempt → Nat → Bool → List Event × Option Int
  | [], cam, _ =>
    if cfg.in_raw_file_path ≠ "" ∧ cfg.serial ≠ "" then ([.construct cam, .destroy cam], some 1)
    else ([.construct cam], none)
  | a :: rest, cam, do_retry =>
    match body cfg a cam do_retry with
    | (ev, .ret code) => (ev, some code)
    | (ev, .running) => (ev, none)
    | (ev, .cond true) =>
      let r := do_while cfg rest (cam + 1) true
      (ev ++ r.1, r.2)
    | (ev, .cond false) => (ev, some 0)

/-- The configuration in force when the outer loop is entered: the output path with its
default applied, and the ROI emptied when it does not have four values. -/
def config_of (cl : CommandLine) (str_time : String) : Config :=
  { serial := cl.serial
    biases_file := cl.biases_file
    in_raw_file_path := cl.in_raw_file_path
    out_raw_file_path := cl.output_raw_file.getD (raw_filepath_w_date str_time)
    roi := match cl.roi with
      | some r => if r.length ≠ 4 then [] else r
      | none => []
    record_only := cl.record_only }

/-- The function `main`: events in program order and the exit code. `str_time` is the value
returned by `get_str_time()`. `do_retry` is initialised to `false`. -/
def main (cl : CommandLine) (str_time : String) (env : List Attempt) :
    List Event × Option Int :=
  if cl.parse_error then ([], some 1)
  else if cl.help then ([], some 0)
  else if cl.roi.isSome ∧ cl.in_raw_file_path ≠ "" then ([], some 1)
  else do_while (config_of cl str_time) env 0 false

/-! ## Timing of `process_ui_for` in whole milliseconds -/

/-- The call `std::this_thread::sleep_for(d)`: the clock advances by `d` when `d` is positive
and not at all otherwise. -/
def sleep_for (d : Int) (t : Nat) : Nat := t + d.toNat

/-- The function `process_ui_for(delay_ms)` on a millisecond clock: entered at `t`, with
`cv::waitKey` returning after `e` ms; the result is the time at which it returns. -/
def process_ui_for (delay_ms : Int) (e : Nat) (t : Nat) : Nat :=
  let t_then := t
  let t_now := t + e
  sleep_for (delay_ms - ((t_now : Int) - (t_then : Int))) t_now

/-- The time at which the key poll of a cycle begins when the cycle starts at `t` and showing
the frame (`cv::imshow`) takes `p` ms. -/
def poll_start (p : Nat) (t : Nat) : Nat := t + p

/-- The time at which a display-mode cycle that starts at `t` ends: the frame is shown, then
`process_ui_for(33)` runs; key dispatch is taken as instantaneous. -/
def cycle_end (p e : Nat) (t : Nat) : Nat := process_ui_for 33 e (poll_start p t)

/-! ## Vocabulary of the properties -/

/-- A cycle whose key is q or Escape: in display mode its dispatch stops the camera. -/
def Cycle.quits (c : Cycle) : Bool := c.key == KEY_q || c.key == ESCAPE

/-- The cycles a record-only control loop goes through: up to and including the first one at
whose end the session has stopped running. -/
def processed_record_only : List Cycle → List Cycle
  | [] => []
  | c :: cs => if c.ends then [c] else c :: processed_record_only cs

/-- The cycles a display-mode control loop goes through: up to and including the first one
that dispatches q or Escape or at whose end the session has stopped running. -/
def processed_display : List Cycle → List Cycle
  | [] => []
  | c :: cs => if c.quits || c.ends then [c] else c :: processed_display cs

/-- Start-capture and stop-capture requests alternate; the flag says what the list must begin
with when it is not empty: a start when `false` (not recording), a stop when `true`. -/
def alternates : Bool → List Request → Bool
  | _, [] => true
  | false, .start_recording _ :: l => alternates true l
  | true, .stop_recording :: l => alternates false l
  | _, _ => false

/-- No session-stop request is made before the CD callback is removed. -/
def no_stop_before_unsubscribe : List Request → Bool
  | [] => true
  | .cd_remove_callback _ :: _ => true
  | .stop :: _ => false
  | _ :: l => no_stop_before_unsubscribe l

/-- The events of consecutive iterations that each fail to open the camera while `do_retry` is
set: construct, the open requests, a one second sleep, destroy. -/
def retry_events (cfg : Config) : List Attempt → Nat → List Event
  | [], _ => []
  | a :: fs, cam =>
    [.construct cam] ++ on_cam cam (open_camera cfg a).1 ++ [.sleep_seconds 1, .destroy cam]
      ++ retry_events cfg fs (cam + 1)

/-- The requests one pass through the control loop body adds to the log, read off the two
switches: what `cycle_log` proves about `cycle`. -/
def cycle_requests (cfg : Config) (c : Cycle) (s : State) : List Request :=
  if cfg.record_only then
    if c.key = KEY_q ∧ s.recording = true then [.stop_recording] else []
  else if c.key = KEY_q then
    (if s.recording then [.stop_recording] else []) ++ [.stop]
  else if c.key = ESCAPE then [.stop]
  else if c.key = SPACE then
    [if s.recording then .stop_recording else .start_recording cfg.out_raw_file_path]
  else if c.key = KEY_r then
    if cfg.roi.length = 0 then [] else [if s.is_roi_set then .roi_unset else roi_request cfg.roi]
  else []

/-- How the capture requests `l` issued by one step relate to the `recording` flag before and
after it: none and the flag is unchanged, or one start issued with the flag false and leaving
it true, or one stop issued with the flag true and leaving it false. -/
def capture_step (path : String) (before after : Bool) (l : List Request) : Prop :=
  (l.filter Request.is_capture = [] ∧ after = before)
  ∨ (l.filter Request.is_capture = [.start_recording path] ∧ before = false ∧ after = true)
  ∨ (l.filter Request.is_capture = [.stop_recording] ∧ before = true ∧ after = false)

/-! ## Sample inputs -/

/-- A live-camera command line with the ROI of the scenario, display mode. -/
def sample_cl : CommandLine :=
  { parse_error := false, help := false, serial := "", biases_file := "",
    in_raw_file_path := "", output_raw_file := none, roi := some [10, 10, 100, 100],
    record_only := false }

/-- The configuration of `sample_cl` when `get_str_time()` returns `"t"`. -/
def sample_display : Config := config_of sample_cl "t"

/-- The same configuration in record-only mode. -/
def sample_record_only : Config := { sample_display with record_only := true }

/-- An attempt in which every driver call succeeds, running the given cycles. -/
def sample_attempt (cycles : List Cycle) : Attempt :=
  { open_throws := false, biases_throws := false, roi_throws := false, cb_id := 0,
    cycles := cycles, err_late := false }

/-- An attempt whose open call throws. -/
def sample_failure : Attempt :=
  { open_throws := true, biases_throws := false, roi_throws := false, cb_id := 0, cycles := [],
    err_late := false }

/-- A running session that is recording, with `do_retry` set. -/
def sample_state : State :=
  { do_retry := true, recording := true, is_roi_set := true, running := true, log := [] }

/-! ## Basic facts about the control loop -/

theorem control_loop_not_running (cfg : Config) (cs : List Cycle) (s : State)
    (h : s.running = false) : control_loop cfg cs s = s := by
  cases cs with
  | nil => rfl
  | cons c cs => simp [control_loop, h]

theorem control_loop_append (cfg : Config) (pre cs : List Cycle) (s : State) :
    control_loop cfg (pre ++ cs) s = control_loop cfg cs (control_loop cfg pre s) := by
  induction pre generalizing s with
  | nil => rfl
  | cons c pre ih =>
    by_cases h : s.running = true
    · simp [control_loop, h, ih]
    · have h0 : s.running = false := by simpa using h
      simp [control_loop, h0, control_loop_not_running]

/-! ## Key dispatch in display mode -/

theorem switch_display_ESCAPE (cfg : Config) (s : State) :
    switch_display cfg ESCAPE s =
      { s with do_retry := false, running := false, log := s.log ++ [.stop] } := by
  simp [switch_display, case_ESCAPE, camera_stop, State.call, ESCAPE, KEY_q]

theorem switch_display_q (cfg : Config) (s : State) :
    switch_display cfg KEY_q s =
      { s with do_retry := false, running := false, recording := false,
               log := s.log ++ (if s.recording then [.stop_recording] else []) ++ [.stop] } := by
  cases h : s.recording <;>
    simp [switch_display, case_q, case_ESCAPE, camera_stop, State.call, h]

theorem cycle_display (cfg : Config) (c : Cycle) (s : State) (hd : cfg.record_only = false) :
    cycle cfg c s =
      let s1 := if c.err then runtime_error_callback s else s
      let s2 := switch_display cfg c.key s1
      if c.ends then { s2 with running := false } else s2 := by
  simp [cycle, hd]

theorem cycle_record_only (cfg : Config) (c : Cycle) (s : State) (hr : cfg.record_only = true) :
    cycle cfg c s =
      let s1 := if c.err then runtime_error_callback s else s
      let s2 := switch_record_only c.key s1
      if c.ends then { s2 with running := false } else s2 := by
  simp [cycle, hr]

/-- In record-only mode, or in display mode with a key other than q and Escape, the switch
leaves `do_retry` and the running flag alone. -/
theorem switch_display_nonquit (cfg : Config) (key : Int) (s : State)
    (hq : (key == KEY_q || key == ESCAPE) = false) :
    (switch_display cfg key s).do_retry = s.do_retry
    ∧ (switch_display cfg key s).running = s.running := by
  simp only [Bool.or_eq_false_iff, beq_eq_false_iff_ne, ne_eq] at hq
  unfold switch_display
  rw [if_neg hq.1, if_neg hq.2]
  unfold case_SPACE case_r
  split_ifs <;> simp [State.call]

theorem cd_events_cb_id_display (cfg : Config) (a : Attempt) (hd : cfg.record_only = false) :
    cd_events_cb_id cfg a = narrow_to_int a.cb_id := by
  simp [cd_events_cb_id, hd]

theorem teardown_eq (cfg : Config) (a : Attempt) (s : State) :
    teardown cfg a s =
      { s with running := false,
               log := s.log
                 ++ (if cd_events_cb_id cfg a ≥ 0
                     then [.cd_remove_callback (cd_events_cb_id cfg a)] else [])
                 ++ [.stop] } := by
  unfold teardown
  split_ifs <;> simp [camera_stop, State.call]

theorem late_fields (a : Attempt) (s : State) :
    (if a.err_late = true then runtime_error_callback s else s) =
      { s with do_retry := s.do_retry || a.err_late } := by
  cases s with
  | mk dr rec roi run log => cases a.err_late <;> simp [runtime_error_callback]

theorem body_exited (cfg : Config) (a : Attempt) (cam : Nat) (do_retry : Bool)
    (hconf : ¬ (cfg.in_raw_file_path ≠ "" ∧ cfg.serial ≠ ""))
    (hopen : (open_camera cfg a).2 = true)
    (hexit : (session_loop cfg a do_retry (open_camera cfg a).1).running = false) :
    body cfg a cam do_retry =
      ([.construct cam]
        ++ on_cam cam ((session_loop cfg a do_retry (open_camera cfg a).1).log
            ++ (if cd_events_cb_id cfg a ≥ 0
                then [.cd_remove_callback (cd_events_cb_id cfg a)] else [])
            ++ [.stop])
        ++ [.destroy cam],
       .cond ((session_loop cfg a do_retry (open_camera cfg a).1).do_retry || a.err_late)) := by
  unfold body
  rw [if_neg hconf]
  simp only [hopen, Bool.not_true, Bool.false_eq_true, if_false, hexit, late_fields,
    teardown_eq]

theorem body_open_failed (cfg : Config) (a : Attempt) (cam : Nat) (do_retry : Bool)
    (hconf : ¬ (cfg.in_raw_file_path ≠ "" ∧ cfg.serial ≠ ""))
    (hfail : (open_camera cfg a).2 = false) :
    body cfg a cam do_retry =
      if do_retry then
        ([.construct cam] ++ on_cam cam (open_camera cfg a).1
          ++ [.sleep_seconds 1, .destroy cam], .cond true)
      else
        ([.construct cam] ++ on_cam cam (open_camera cfg a).1 ++ [.destroy cam], .ret (-1)) := by
  unfold body
  rw [if_neg hconf]
  cases do_retry <;> simp [hfail]

theorem body_conflict (cfg : Config) (a : Attempt) (cam : Nat) (do_retry : Bool)
    (hconf : cfg.in_raw_file_path ≠ "" ∧ cfg.serial ≠ "") :
    body cfg a cam do_retry = ([.construct cam, .destroy cam], .ret 1) := by
  unfold body
  rw [if_pos hconf]

theorem do_while_cons (cfg : Config) (a : Attempt) (rest : List Attempt) (cam : Nat)
    (do_retry : Bool) :
    do_while cfg (a :: rest) cam do_retry =
      match body cfg a cam do_retry with
      | (ev, .ret code) => (ev, some code)
      | (ev, .running) => (ev, none)
      | (ev, .cond true) =>
        (ev ++ (do_while cfg rest (cam + 1) true).1, (do_while cfg rest (cam + 1) true).2)
      | (ev, .cond false) => (ev, some 0) := by
  rfl

theorem do_while_cons_exited (cfg : Config) (a : Attempt) (rest : List Attempt) (cam : Nat)
    (do_retry : Bool)
    (hconf : ¬ (cfg.in_raw_file_path ≠ "" ∧ cfg.serial ≠ ""))
    (hopen : (open_camera cfg a).2 = true)
    (hexit : (session_loop cfg a do_retry (open_camera cfg a).1).running = false) :
    do_while cfg (a :: rest) cam do_retry =
      if ((session_loop cfg a do_retry (open_camera cfg a).1).do_retry || a.err_late) = true then
        ([.construct cam]
          ++ on_cam cam ((session_loop cfg a do_retry (open_camera cfg a).1).log
              ++ (if cd_events_cb_id cfg a ≥ 0
                  then [.cd_remove_callback (cd_events_cb_id cfg a)] else [])
              ++ [.stop])
          ++ [.destroy cam] ++ (do_while cfg rest (cam + 1) true).1,
         (do_while cfg rest (cam + 1) true).2)
      else
        ([.construct cam]
          ++ on_cam cam ((session_loop cfg a do_retry (open_camera cfg a).1).log
              ++ (if cd_events_cb_id cfg a ≥ 0
                  then [.cd_remove_callback (cd_events_cb_id cfg a)] else [])
              ++ [.stop])
          ++ [.destroy cam], some 0) := by
  rw [do_while_cons, body_exited cfg a cam do_retry hconf hopen hexit]
  cases ((session_loop cfg a do_retry (open_camera cfg a).1).do_retry || a.err_late) <;> rfl

theorem do_while_cons_open_failed (cfg : Config) (a : Attempt) (rest : List Attempt) (cam : Nat)
    (do_retry : Bool)
    (hconf : ¬ (cfg.in_raw_file_path ≠ "" ∧ cfg.serial ≠ ""))
    (hfail : (open_camera cfg a).2 = false) :
    do_while cfg (a :: rest) cam do_retry =
      if do_retry then
        ([.construct cam] ++ on_cam cam (open_camera cfg a).1
          ++ [.sleep_seconds 1, .destroy cam] ++ (do_while cfg rest (cam + 1) true).1,
         (do_while cfg rest (cam + 1) true).2)
      else
        ([.construct cam] ++ on_cam cam (open_camera cfg a).1 ++ [.destroy cam], some (-1)) := by
  rw [do_while_cons, body_open_failed cfg a cam do_retry hconf hfail]
  cases do_retry <;> simp

/-! ## Escape (C1) -/

theorem cycle_display_ESCAPE (cfg : Config) (c : Cycle) (s : State)
    (hd : cfg.record_only = false) (hkey : c.key = ESCAPE) :
    cycle cfg c s = { s with do_retry := false, running := false, log := s.log ++ [.stop] } := by
  rw [cycle_display cfg c s hd, hkey]
  cases c.err <;> cases c.ends <;> simp [switch_display_ESCAPE, runtime_error_callback]

/-- C1, as stated, fails in record-only mode: an Escape key press processed by the control
loop leaves `do_retry` set, makes no request and leaves the session running; and when the
session then ends by itself after a runtime error, `main` does not return 0 but opens a
second camera. In display mode too `main` opens a second camera after Escape when the
runtime-error callback fires between the Escape dispatch and the evaluation of
`while (do_retry)`. -/
theorem C1_escape_ignored_in_record_only :
    (cycle sample_record_only ⟨false, ESCAPE, false⟩ sample_state).do_retry = true
    ∧ (cycle sample_record_only ⟨false, ESCAPE, false⟩ sample_state).log = sample_state.log
    ∧ (cycle sample_record_only ⟨false, ESCAPE, false⟩ sample_state).running = true
    ∧ main { sample_cl with record_only := true } "t"
        [sample_attempt [⟨true, ESCAPE, true⟩], sample_failure]
      = ([.construct 0, .request 0 .from_first_available,
          .request 0 (.roi_set 10 10 100 100), .request 0 .add_runtime_error_callback,
          .request 0 .start, .request 0 (.start_recording "t"),
          .request 0 (.cd_remove_callback 0), .request 0 .stop, .destroy 0,
          .construct 1, .request 1 .from_first_available, .sleep_seconds 1, .destroy 1,
          .construct 2], none)
    ∧ main sample_cl "t"
        [{ sample_attempt [⟨false, ESCAPE, false⟩] with err_late := true }, sample_failure]
      = ([.construct 0, .request 0 .from_first_available,
          .request 0 (.roi_set 10 10 100 100), .request 0 .add_runtime_error_callback,
          .request 0 .cd_add_callback, .request 0 .start, .request 0 .stop,
          .request 0 (.cd_remove_callback 0), .request 0 .stop, .destroy 0,
          .construct 1, .request 1 .from_first_available, .sleep_seconds 1, .destroy 1,
          .construct 2], none) := by
  decide

/-- C1 (amended): in full-display mode, for every state of the control loop (any `do_retry`,
recording or not), a cycle whose key is Escape sets `do_retry` to false, issues a stop
request and leaves the session not running; and when such a cycle is reached by a running
control loop, the loop exits and the teardown follows (the CD callback is removed when its
id, narrowed to `int`, is not negative; the camera is stopped and destroyed). When the
runtime-error callback does not fire between the Escape dispatch and the evaluation of
`while (do_retry)`, the outer do-while ends with exit code 0 after events that all concern
the camera of this iteration: no further attempt. When it does fire, `do_retry` is set again
and the do-while goes on with the next camera. -/
theorem C1_escape_display (cfg : Config) (a : Attempt) (rest : List Attempt) (cam : Nat)
    (do_retry : Bool) (pre post : List Cycle) (c : Cycle)
    (hd : cfg.record_only = false)
    (hconf : ¬ (cfg.in_raw_file_path ≠ "" ∧ cfg.serial ≠ ""))
    (hopen : (open_camera cfg a).2 = true)
    (hcycles : a.cycles = pre ++ c :: post)
    (hkey : c.key = ESCAPE)
    (hpre : (control_loop cfg pre (session_start cfg do_retry (open_camera cfg a).1)).running
              = true) :
    (∀ s : State,
        cycle cfg c s = { s with do_retry := false, running := false, log := s.log ++ [.stop] })
    ∧ session_loop cfg a do_retry (open_camera cfg a).1 =
        { control_loop cfg pre (session_start cfg do_retry (open_camera cfg a).1) with
          do_retry := false, running := false,
          log := (control_loop cfg pre (session_start cfg do_retry (open_camera cfg a).1)).log
                  ++ [.stop] }
    ∧ do_while cfg (a :: rest) cam do_retry =
        if a.err_late = true then
          ([.construct cam]
            ++ on_cam cam
                ((control_loop cfg pre (session_start cfg do_retry (open_camera cfg a).1)).log
                  ++ [.stop]
                  ++ (if narrow_to_int a.cb_id ≥ 0
                      then [.cd_remove_callback (narrow_to_int a.cb_id)] else [])
                  ++ [.stop])
            ++ [.destroy cam] ++ (do_while cfg rest (cam + 1) true).1,
           (do_while cfg rest (cam + 1) true).2)
        else
          ([.construct cam]
            ++ on_cam cam
                ((control_loop cfg pre (session_start cfg do_retry (open_camera cfg a).1)).log
                  ++ [.stop]
                  ++ (if narrow_to_int a.cb_id ≥ 0
                      then [.cd_remove_callback (narrow_to_int a.cb_id)] else [])
                  ++ [.stop])
            ++ [.destroy cam], some 0) := by
  have hloop : session_loop cfg a do_retry (open_camera cfg a).1 =
      cycle cfg c (control_loop cfg pre (session_start cfg do_retry (open_camera cfg a).1)) := by
    unfold session_loop
    rw [hcycles, control_loop_append]
    simp only [control_loop, hpre, if_true]
    exact control_loop_not_running cfg post _ (by rw [cycle_display_ESCAPE cfg c _ hd hkey])
  refine ⟨fun s => cycle_display_ESCAPE cfg c s hd hkey, ?_, ?_⟩
  · rw [hloop, cycle_display_ESCAPE cfg c _ hd hkey]
  · rw [do_while_cons_exited cfg a rest cam do_retry hconf hopen
      (by rw [hloop, cycle_display_ESCAPE cfg c _ hd hkey])]
    rw [hloop, cycle_display_ESCAPE cfg c _ hd hkey, cd_events_cb_id_display cfg a hd]
    simp only [Bool.false_or]

/-- C1 (amended), on a sample: after a Space key and a runtime error, Escape ends `main`
with exit code 0 and the second supplied attempt is never started. -/
theorem C1_escape_display_witness :
    do_while sample_display
        (sample_attempt [⟨true, SPACE, false⟩, ⟨true, ESCAPE, false⟩, ⟨false, SPACE, false⟩]
          :: [sample_attempt []]) 0 false =
      ([.construct 0, .request 0 .from_first_available,
        .request 0 (.roi_set 10 10 100 100), .request 0 .add_runtime_error_callback,
        .request 0 .cd_add_callback, .request 0 .start, .request 0 (.start_recording "t"),
        .request 0 .stop, .request 0 (.cd_remove_callback 0), .request 0 .stop,
        .destroy 0], some 0) :=
  (C1_escape_display sample_display
    (sample_attempt [⟨true, SPACE, false⟩, ⟨true, ESCAPE, false⟩, ⟨false, SPACE, false⟩])
    [sample_attempt []] 0 false [⟨true, SPACE, false⟩] [⟨false, SPACE, false⟩]
    ⟨true, ESCAPE, false⟩ (by decide) (by decide) (by decide) (by decide) (by decide)
    (by decide)).2.2

/-! ## Failure to open the camera (C2) -/

theorem do_while_retry (cfg : Config) (fs rest : List Attempt) (cam : Nat)
    (hconf : ¬ (cfg.in_raw_file_path ≠ "" ∧ cfg.serial ≠ ""))
    (hfs : ∀ f ∈ fs, (open_camera cfg f).2 = false) :
    do_while cfg (fs ++ rest) cam true =
      (retry_events cfg fs cam ++ (do_while cfg rest (cam + fs.length) true).1,
       (do_while cfg rest (cam + fs.length) true).2) := by
  induction fs generalizing cam with
  | nil => simp [retry_events]
  | cons f fs ih =>
    have hf : (open_camera cfg f).2 = false := hfs f (List.mem_cons_self f fs)
    have hrest : ∀ g ∈ fs, (open_camera cfg g).2 = false :=
      fun g hg => hfs g (List.mem_cons_of_mem f hg)
    rw [List.cons_append, do_while_cons_open_failed cfg f (fs ++ rest) cam true hconf hf,
      ih (cam + 1) hrest]
    have hlen : cam + 1 + fs.length = cam + (f :: fs).length := by
      simp only [List.length_cons]; omega
    simp [retry_events, hlen]

theorem open_camera_fails_iff (cfg : Config) (a : Attempt) :
    (open_camera cfg a).2 = false ↔
      (a.open_throws = true
        ∨ (cfg.in_raw_file_path = "" ∧ cfg.biases_file ≠ "" ∧ a.biases_throws = true)
        ∨ (cfg.in_raw_file_path = "" ∧ cfg.roi ≠ [] ∧ a.roi_throws = true)) := by
  unfold open_camera
  split_ifs with h1 h2 h3 h4 <;> simp_all

/-- C2, as stated, fails at the first attempt of a run: no operator quit has occurred and no
cycle has run, the open call throws, and `main` returns -1 at once, without a sleep and
without starting the second supplied attempt. -/
theorem C2_first_failure_is_fatal :
    main sample_cl "t" [sample_failure, sample_attempt []] =
      ([.construct 0, .request 0 .from_first_available, .destroy 0], some (-1)) := by
  decide

/-- C2 (amended): when an attempt fails to open a session (the open, bias or initial-ROI call
throws), the outcome depends on `do_retry` alone. With `do_retry` false (its initial value,
which only a runtime-error notification changes) the do-while returns -1 without sleeping.
With `do_retry` true it sleeps one second and attempts again on the next camera; over any
run of consecutive failing attempts this repeats, and the program then continues with the
attempts that follow, `do_retry` still true. -/
theorem C2_open_failure (cfg : Config) (a : Attempt) (fs rest : List Attempt) (cam : Nat)
    (hconf : ¬ (cfg.in_raw_file_path ≠ "" ∧ cfg.serial ≠ ""))
    (ha : (open_camera cfg a).2 = false)
    (hfs : ∀ f ∈ fs, (open_camera cfg f).2 = false) :
    (a.open_throws = true
      ∨ (cfg.in_raw_file_path = "" ∧ cfg.biases_file ≠ "" ∧ a.biases_throws = true)
      ∨ (cfg.in_raw_file_path = "" ∧ cfg.roi ≠ [] ∧ a.roi_throws = true))
    ∧ do_while cfg (a :: rest) cam false =
        ([.construct cam] ++ on_cam cam (open_camera cfg a).1 ++ [.destroy cam], some (-1))
    ∧ do_while cfg (a :: rest) cam true =
        ([.construct cam] ++ on_cam cam (open_camera cfg a).1
          ++ [.sleep_seconds 1, .destroy cam] ++ (do_while cfg rest (cam + 1) true).1,
         (do_while cfg rest (cam + 1) true).2)
    ∧ do_while cfg (fs ++ rest) cam true =
        (retry_events cfg fs cam ++ (do_while cfg rest (cam + fs.length) true).1,
         (do_while cfg rest (cam + fs.length) true).2) := by
  refine ⟨(open_camera_fails_iff cfg a).mp ha, ?_, ?_, do_while_retry cfg fs rest cam hconf hfs⟩
  · rw [do_while_cons_open_failed cfg a rest cam false hconf ha]
    simp
  · rw [do_while_cons_open_failed cfg a rest cam true hconf ha]
    simp

/-- C2 (amended), on a sample: with `do_retry` set, two failing attempts each end in a one
second sleep and the third attempt is started. -/
theorem C2_open_failure_witness :
    do_while sample_display ([sample_failure, sample_failure] ++ [sample_attempt []]) 5 true =
      (retry_events sample_display [sample_failure, sample_failure] 5
        ++ (do_while sample_display [sample_attempt []] (5 + 2) true).1,
       (do_while sample_display [sample_attempt []] (5 + 2) true).2) :=
  (C2_open_failure sample_display sample_failure [sample_failure, sample_failure]
    [sample_attempt []] 5 (by decide) (by decide) (by decide)).2.2.2

/-! ## Runtime errors (C3) -/

/-- C4, as stated, fails when the command line also carries the help flag: with an input
file path and a serial id, `main` prints the help and returns 0. -/
theorem C4_help_returns_zero :
    main { sample_cl with help := true, serial := "00001234", in_raw_file_path := "in.raw",
                          roi := none } "t" [sample_attempt []] = ([], some 0) := by
  decide

/-- C4 (amended): for every command line that supplies an input file path together with a
serial id or an ROI, `main` makes no open call, and it returns 1 unless the command line
parses and carries the help flag, in which case it returns 0. -/
theorem C4_conflicting_source (cl : CommandLine) (str_time : String) (env : List Attempt)
    (hfile : cl.in_raw_file_path ≠ "")
    (hother : cl.serial ≠ "" ∨ cl.roi.isSome = true) :
    (main cl str_time env).2 = some (if cl.parse_error = false ∧ cl.help = true then 0 else 1)
    ∧ ∀ e ∈ (main cl str_time env).1, e.is_open = false := by
  unfold main
  by_cases hp : cl.parse_error = true
  · simp [hp]
  by_cases hh : cl.help = true
  · simp [hp, hh]
  by_cases hroi : cl.roi.isSome = true
  · simp [hp, hh, hroi, hfile]
  have hserial : cl.serial ≠ "" := hother.resolve_right hroi
  have hconf : (config_of cl str_time).in_raw_file_path ≠ "" ∧
      (config_of cl str_time).serial ≠ "" := ⟨hfile, hserial⟩
  rw [if_neg hp, if_neg hh, if_neg (fun h => hroi h.1)]
  cases env with
  | nil =>
    unfold do_while
    rw [if_pos hconf]
    simp [hp, hh, Event.is_open]
  | cons a rest =>
    rw [do_while_cons, body_conflict _ a 0 false hconf]
    simp [hp, hh, Event.is_open]

/-- C4 (amended), on a sample: an input file path with a four-value ROI is refused with exit
code 1 before any event. -/
theorem C4_conflicting_source_witness :
    (main { sample_cl with in_raw_file_path := "in.raw" } "t" [sample_attempt []]).2 = some 1 :=
  (C4_conflicting_source { sample_cl with in_raw_file_path := "in.raw" } "t"
    [sample_attempt []] (by decide) (by decide)).1

/-! ## ROI toggle (C5) -/

theorem session_start_display (cfg : Config) (do_retry : Bool) (opened : List Request)
    (hd : cfg.record_only = false) :
    session_start cfg do_retry opened =
      { do_retry := do_retry, recording := false, is_roi_set := true, running := true,
        log := opened ++ [.add_runtime_error_callback, .cd_add_callback, .start] } := by
  simp [session_start, hd, camera_start, State.call]

theorem session_start_record_only (cfg : Config) (do_retry : Bool) (opened : List Request)
    (hr : cfg.record_only = true) :
    session_start cfg do_retry opened =
      { do_retry := do_retry, recording := true, is_roi_set := true, running := true,
        log := opened ++ [.add_runtime_error_callback, .start,
                          .start_recording cfg.out_raw_file_path] } := by
  simp [session_start, hr, camera_start, State.call]

theorem switch_display_r (cfg : Config) (s : State) (x y w h : Nat)
    (hroi : cfg.roi = [x, y, w, h]) :
    switch_display cfg KEY_r s =
      { s with is_roi_set := !s.is_roi_set,
               log := s.log ++ [if s.is_roi_set then .roi_unset else .roi_set x y w h] } := by
  cases hs : s.is_roi_set <;>
    simp [switch_display, case_r, hroi, State.call, roi_request, hs, KEY_r, KEY_q, ESCAPE, SPACE]

/-- C5: for every four-value ROI `x y w h` given on the command line of a display-mode run,
the session starts with `is_roi_set` true (the ROI applied), and two cycles with key r from
there issue exactly an unset-ROI request followed by a set-ROI request with `x y w h` and
leave the state as it was, requests apart; the same holds from every state of the control
loop in which the ROI is applied. -/
theorem C5_roi_toggle_twice (cl : CommandLine) (str_time : String) (x y w h : Nat)
    (do_retry : Bool) (opened : List Request)
    (hroi : cl.roi = some [x, y, w, h]) (hd : cl.record_only = false) :
    (session_start (config_of cl str_time) do_retry opened).is_roi_set = true
    ∧ control_loop (config_of cl str_time) [⟨false, KEY_r, false⟩, ⟨false, KEY_r, false⟩]
          (session_start (config_of cl str_time) do_retry opened) =
        { session_start (config_of cl str_time) do_retry opened with
          log := (session_start (config_of cl str_time) do_retry opened).log
                  ++ [.roi_unset, .roi_set x y w h] }
    ∧ (∀ s : State, s.is_roi_set = true →
        (switch_display (config_of cl str_time) KEY_r s).is_roi_set = false
        ∧ (switch_display (config_of cl str_time) KEY_r s).log = s.log ++ [.roi_unset]
        ∧ switch_display (config_of cl str_time) KEY_r
            (switch_display (config_of cl str_time) KEY_r s) =
          { s with log := s.log ++ [.roi_unset, .roi_set x y w h] }) := by
  have hcfg : (config_of cl str_time).roi = [x, y, w, h] := by simp [config_of, hroi]
  have hdis : (config_of cl str_time).record_only = false := hd
  have htwice : ∀ s : State, s.is_roi_set = true →
      switch_display (config_of cl str_time) KEY_r
          (switch_display (config_of cl str_time) KEY_r s) =
        { s with log := s.log ++ [.roi_unset, .roi_set x y w h] } := by
    intro s hs
    rw [switch_display_r _ s x y w h hcfg, switch_display_r _ _ x y w h hcfg]
    simp [hs]
  refine ⟨?_, ?_, ?_⟩
  · rw [session_start_display _ _ _ hdis]
  · have hrun : (session_start (config_of cl str_time) do_retry opened).running = true := by
      rw [session_start_display _ _ _ hdis]
    have hset : (session_start (config_of cl str_time) do_retry opened).is_roi_set = true := by
      rw [session_start_display _ _ _ hdis]
    have hrun1 : (switch_display (config_of cl str_time) KEY_r
        (session_start (config_of cl str_time) do_retry opened)).running = true := by
      rw [switch_display_r _ _ x y w h hcfg]; exact hrun
    have hc1 : ∀ t : State, cycle (config_of cl str_time) ⟨false, KEY_r, false⟩ t =
        switch_display (config_of cl str_time) KEY_r t := by
      intro t; simp [cycle_display _ _ _ hdis]
    have hloop : control_loop (config_of cl str_time)
          [⟨false, KEY_r, false⟩, ⟨false, KEY_r, false⟩]
          (session_start (config_of cl str_time) do_retry opened) =
        switch_display (config_of cl str_time) KEY_r
          (switch_display (config_of cl str_time) KEY_r
            (session_start (config_of cl str_time) do_retry opened)) := by
      simp only [control_loop, hc1, if_pos hrun, if_pos hrun1]
    rw [hloop]
    exact htwice _ hset
  · intro s hs
    refine ⟨?_, ?_, htwice s hs⟩
    · rw [switch_display_r _ s x y w h hcfg]; simp [hs]
    · rw [switch_display_r _ s x y w h hcfg]; simp [hs]

/-- C5, on the ROI of the scenario: two r key presses from the start of the session issue
unset and then set with 10 10 100 100. -/
theorem C5_roi_toggle_twice_witness :
    control_loop (config_of sample_cl "t") [⟨false, KEY_r, false⟩, ⟨false, KEY_r, false⟩]
        (session_start (config_of sample_cl "t") false [.from_first_available]) =
      { session_start (config_of sample_cl "t") false [.from_first_available] with
        log := (session_start (config_of sample_cl "t") false [.from_first_available]).log
                ++ [.roi_unset, .roi_set 10 10 100 100] } :=
  (C5_roi_toggle_twice sample_cl "t" 10 10 100 100 false [.from_first_available]
    (by decide) (by decide)).2.1

/-! ## The q key in display mode (C10) -/

/-- C10: in display mode, for every state and every cycle, dispatching q issues a
stop-capture request exactly when `recording` is true, clears `recording`, and then does what
Escape does: the cycle equals the Escape cycle run from the state reached after that
optional stop-capture step, so a stop request follows and `do_retry` is cleared. -/
theorem C10_q_falls_through_to_escape (cfg : Config) (c : Cycle) (s : State)
    (hd : cfg.record_only = false) :
    cycle cfg { c with key := KEY_q } s =
        cycle cfg { c with key := ESCAPE }
          (if s.recording then { s.call .stop_recording with recording := false } else s)
    ∧ (cycle cfg { c with key := KEY_q } s).log =
        s.log ++ (if s.recording then [.stop_recording] else []) ++ [.stop]
    ∧ (cycle cfg { c with key := ESCAPE } s).log = s.log ++ [.stop]
    ∧ (cycle cfg { c with key := KEY_q } s).recording = false
    ∧ (cycle cfg { c with key := KEY_q } s).do_retry = false
    ∧ (cycle cfg { c with key := KEY_q } s).running = false
    ∧ (cycle cfg { c with key := KEY_q } s).is_roi_set = s.is_roi_set
    ∧ cycle cfg { c with key := KEY_q } { s with recording := false } =
        cycle cfg { c with key := ESCAPE } { s with recording := false } := by
  simp only [cycle_display _ _ _ hd, switch_display_q, switch_display_ESCAPE]
  cases c.err <;> cases c.ends <;> cases hrec : s.recording <;>
    simp [runtime_error_callback, State.call, hrec]

/-- C10, on a sample: q pressed while recording issues stop-capture and then stop. -/
theorem C10_q_falls_through_to_escape_witness :
    (cycle sample_display { (⟨false, 0, false⟩ : Cycle) with key := KEY_q } sample_state).log =
      sample_state.log ++ (if sample_state.recording then [.stop_recording] else [])
        ++ [.stop] :=
  (C10_q_falls_through_to_escape sample_display ⟨false, 0, false⟩ sample_state
    (by decide)).2.1

/-! ## Timing of the key poll (C9) -/

/-- C9, as stated, fails whenever showing the frame takes more than 5 ms: with 10 ms of
presentation in each cycle and a key poll that returns after 5 ms, a cycle started at 0
begins its poll at 10 and ends its wait at 43, not at the deadline 33 counted from the start
of the cycle, and the next poll begins at 53, so that the polls are 43 ms apart. -/
theorem C9_presentation_not_compensated :
    poll_start 10 0 = 10
    ∧ cycle_end 10 5 0 = 43
    ∧ poll_start 10 (cycle_end 10 5 0) = 53
    ∧ ¬ (poll_start 10 (cycle_end 10 5 0) - poll_start 10 0 ≤ 33 + 5) := by
  decide

/-- C9 (amended): when the key poll returns after `e ≤ 33` ms, `process_ui_for(33)` returns
exactly 33 ms after it was entered, whatever came before it in the cycle; the time from the
start of one key poll to the start of the next is therefore 33 ms plus the time `p2` spent
showing the frame of the next cycle, and is within 5 ms of 33 ms exactly when `p2 ≤ 5`. -/
theorem C9_poll_period (t p1 e p2 : Nat) (he : e ≤ 33) :
    process_ui_for 33 e (poll_start p1 t) = poll_start p1 t + 33
    ∧ cycle_end p1 e t = t + p1 + 33
    ∧ poll_start p2 (cycle_end p1 e t) = poll_start p1 t + 33 + p2
    ∧ (poll_start p2 (cycle_end p1 e t) - poll_start p1 t ≤ 33 + 5 ↔ p2 ≤ 5)
    ∧ 33 - 5 ≤ poll_start p2 (cycle_end p1 e t) - poll_start p1 t := by
  have h : process_ui_for 33 e (poll_start p1 t) = poll_start p1 t + 33 := by
    have hd : (33 : Int) - (((poll_start p1 t + e : Nat) : Int) - ((poll_start p1 t : Nat) : Int))
        = ((33 - e : Nat) : Int) := by
      omega
    simp only [process_ui_for, sleep_for, hd, Int.toNat_ofNat]
    rw [Nat.add_assoc, Nat.add_sub_of_le he]
  have hc : cycle_end p1 e t = t + p1 + 33 := by
    unfold cycle_end
    rw [h]
    rfl
  have hp : poll_start p2 (cycle_end p1 e t) = poll_start p1 t + 33 + p2 := by
    rw [hc]
    unfold poll_start
    rfl
  refine ⟨h, hc, hp, ?_, ?_⟩
  · rw [hp]
    constructor <;> intro h5 <;> omega
  · rw [hp]
    omega

/-- C9 (amended), on a sample: no presentation time and a key poll that returns at once. -/
theorem C9_poll_period_witness :
    poll_start 0 (cycle_end 0 0 0) = poll_start 0 0 + 33 + 0 :=
  (C9_poll_period 0 0 0 0 (by decide)).2.2.1

/-! ## Recording requests (C6) -/

theorem switch_display_SPACE (cfg : Config) (s : State) :
    switch_display cfg SPACE s =
      { s with recording := !s.recording,
               log := s.log ++ [if s.recording then .stop_recording
                                else .start_recording cfg.out_raw_file_path] } := by
  cases hs : s.recording <;>
    simp [switch_display, case_SPACE, State.call, hs, KEY_q, ESCAPE, SPACE]

theorem switch_display_r_any (cfg : Config) (s : State) :
    switch_display cfg KEY_r s =
      if cfg.roi.length = 0 then s
      else { s with is_roi_set := !s.is_roi_set,
                    log := s.log ++ [if s.is_roi_set then .roi_unset
                                     else roi_request cfg.roi] } := by
  by_cases h0 : cfg.roi.length = 0
  · simp [switch_display, case_r, h0, KEY_r, KEY_q, ESCAPE, SPACE]
  · cases hs : s.is_roi_set <;>
      simp [switch_display, case_r, h0, State.call, hs, KEY_r, KEY_q, ESCAPE, SPACE]

theorem switch_display_other (cfg : Config) (key : Int) (s : State)
    (hq : key ≠ KEY_q) (he : key ≠ ESCAPE) (hs : key ≠ SPACE) (hr : key ≠ KEY_r) :
    switch_display cfg key s = s := by
  simp [switch_display, hq, he, hs, hr]

theorem switch_record_only_eq (key : Int) (s : State) :
    switch_record_only key s =
      { s with recording := s.recording && !(key == KEY_q),
               log := s.log ++ (if key = KEY_q ∧ s.recording = true then [.stop_recording]
                                else []) } := by
  cases s with
  | mk dr rec roi run log =>
    by_cases hq : key = KEY_q <;> cases rec <;> simp [switch_record_only, State.call, hq]

/-- The state in which the key is dispatched: the error callback may have fired, which
changes `do_retry` only. -/
theorem err_fields (c : Cycle) (s : State) :
    (if c.err = true then runtime_error_callback s else s) =
      { s with do_retry := s.do_retry || c.err } := by
  cases s with
  | mk dr rec roi run log => cases c.err <;> simp [runtime_error_callback]

theorem ends_fields (c : Cycle) (s : State) :
    (if c.ends = true then { s with running := false } else s) =
      { s with running := s.running && !c.ends } := by
  cases s with
  | mk dr rec roi run log => cases c.ends <;> simp

theorem cycle_record_only_eq (cfg : Config) (c : Cycle) (s : State)
    (hr : cfg.record_only = true) :
    cycle cfg c s =
      { do_retry := s.do_retry || c.err,
        recording := s.recording && !(c.key == KEY_q),
        is_roi_set := s.is_roi_set,
        running := s.running && !c.ends,
        log := s.log ++ (if c.key = KEY_q ∧ s.recording = true then [.stop_recording]
                         else []) } := by
  rw [cycle_record_only cfg c s hr]
  simp only [err_fields, switch_record_only_eq]
  cases c.ends <;> simp

theorem key_constants :
    ESCAPE ≠ KEY_q ∧ SPACE ≠ KEY_q ∧ SPACE ≠ ESCAPE ∧ KEY_r ≠ KEY_q ∧ KEY_r ≠ ESCAPE
      ∧ KEY_r ≠ SPACE := by
  decide

theorem cycle_log (cfg : Config) (c : Cycle) (s : State) :
    (cycle cfg c s).log = s.log ++ cycle_requests cfg c s := by
  obtain ⟨k1, k2, k3, k4, k5, k6⟩ := key_constants
  cases hro : cfg.record_only
  · rw [cycle_display cfg c s hro]
    simp only [err_fields, ends_fields, cycle_requests, hro, Bool.false_eq_true, if_false]
    by_cases hq : c.key = KEY_q
    · simp [hq, switch_display_q]
    by_cases he : c.key = ESCAPE
    · simp [he, switch_display_ESCAPE, k1]
    by_cases hs : c.key = SPACE
    · simp [hs, switch_display_SPACE, k2, k3]
    by_cases hr : c.key = KEY_r
    · simp only [hr, switch_display_r_any, if_neg k4, if_neg k5, if_neg k6, if_true]
      split_ifs <;> simp
    · simp [switch_display_other cfg c.key _ hq he hs hr, hq, he, hs, hr]
  · rw [cycle_record_only_eq cfg c s hro]
    simp [cycle_requests, hro]

theorem cycle_capture_step (cfg : Config) (c : Cycle) (s : State) :
    capture_step cfg.out_raw_file_path s.recording (cycle cfg c s).recording
      (cycle_requests cfg c s) := by
  obtain ⟨k1, k2, k3, k4, k5, k6⟩ := key_constants
  unfold capture_step
  cases hro : cfg.record_only
  · rw [cycle_display cfg c s hro]
    simp only [err_fields, ends_fields, cycle_requests, hro, Bool.false_eq_true, if_false]
    by_cases hq : c.key = KEY_q
    · cases hrec : s.recording <;> simp [hq, switch_display_q, Request.is_capture, hrec]
    by_cases he : c.key = ESCAPE
    · simp [he, switch_display_ESCAPE, k1, Request.is_capture]
    by_cases hs : c.key = SPACE
    · cases hrec : s.recording <;>
        simp [hs, switch_display_SPACE, k2, k3, Request.is_capture, hrec]
    by_cases hr : c.key = KEY_r
    · simp only [hr, switch_display_r_any, if_neg k4, if_neg k5, if_neg k6, if_true]
      split_ifs <;> simp [Request.is_capture, roi_request]
    · simp [switch_display_other cfg c.key _ hq he hs hr, hq, he, hs, hr]
  · rw [cycle_record_only_eq cfg c s hro]
    by_cases hq : c.key = KEY_q <;> cases hrec : s.recording <;>
      simp [cycle_requests, hro, hq, Request.is_capture, hrec]

theorem alternates_step (path : String) (before after : Bool) (l1 l2 : List Request)
    (hstep : capture_step path before after l1)
    (hrest : alternates after (l2.filter Request.is_capture) = true) :
    alternates before ((l1 ++ l2).filter Request.is_capture) = true := by
  rw [List.filter_append]
  rcases hstep with ⟨h, rfl⟩ | ⟨h, rfl, rfl⟩ | ⟨h, rfl, rfl⟩
  · rw [h]; exact hrest
  · rw [h]; exact hrest
  · rw [h]; exact hrest

theorem control_loop_alternates (cfg : Config) (cs : List Cycle) (s : State) :
    ∃ l, (control_loop cfg cs s).log = s.log ++ l
      ∧ alternates s.recording (l.filter Request.is_capture) = true := by
  induction cs generalizing s with
  | nil => exact ⟨[], by simp [control_loop], by simp [alternates]⟩
  | cons c cs ih =>
    by_cases hrun : s.running = true
    · obtain ⟨l2, hlog, halt⟩ := ih (cycle cfg c s)
      refine ⟨cycle_requests cfg c s ++ l2, ?_, ?_⟩
      · simp only [control_loop, hrun, if_true]
        rw [hlog, cycle_log, List.append_assoc]
      · exact alternates_step _ _ _ _ _ (cycle_capture_step cfg c s) halt
    · exact ⟨[], by simp [control_loop, hrun], by simp [alternates]⟩

theorem open_camera_requests (cfg : Config) (a : Attempt) (r : Request)
    (hr : r ∈ (open_camera cfg a).1) :
    r.is_capture = false ∧ r ≠ .stop ∧ ∀ id, r ≠ .cd_remove_callback id := by
  have key : ∀ q : Request,
      (q = .from_file cfg.in_raw_file_path ∨ q = .from_serial cfg.serial
        ∨ q = .from_first_available ∨ q = .biases_set_from_file cfg.biases_file
        ∨ q = roi_request cfg.roi) →
      q.is_capture = false ∧ q ≠ .stop ∧ ∀ id, q ≠ .cd_remove_callback id := by
    intro q hq
    rcases hq with h | h | h | h | h <;> subst h <;>
      simp [Request.is_capture, roi_request]
  apply key
  unfold open_camera at hr
  split_ifs at hr <;> simp at hr <;> tauto

theorem session_loop_alternates (cfg : Config) (a : Attempt) (do_retry : Bool) :
    alternates false
      ((session_loop cfg a do_retry (open_camera cfg a).1).log.filter Request.is_capture)
      = true := by
  have hopened : (open_camera cfg a).1.filter Request.is_capture = [] := by
    rw [List.filter_eq_nil_iff]
    intro r hr
    simp [(open_camera_requests cfg a r hr).1]
  unfold session_loop
  obtain ⟨l, hlog, halt⟩ :=
    control_loop_alternates cfg a.cycles (session_start cfg do_retry (open_camera cfg a).1)
  rw [hlog]
  cases hro : cfg.record_only
  · rw [session_start_display cfg _ _ hro] at halt ⊢
    simp only [List.filter_append, hopened, List.nil_append]
    simpa [Request.is_capture] using halt
  · rw [session_start_record_only cfg _ _ hro] at halt ⊢
    simp only [List.filter_append, hopened, List.nil_append]
    simpa [Request.is_capture, alternates] using halt

/-- C6: within one session, in either mode, every pass through the control loop body issues
its capture requests in step with the `recording` flag (none and the flag is unchanged, or
one start-capture issued with the flag false and leaving it true, or one stop-capture issued
with the flag true and leaving it false); hence the start-capture and stop-capture requests
of the whole session, from the open calls through the control loop and the teardown,
strictly alternate and begin with a start, whatever keys are pressed. -/
theorem C6_capture_requests_alternate (cfg : Config) (a : Attempt) (do_retry : Bool) :
    (∀ (c : Cycle) (s : State), ∃ l, (cycle cfg c s).log = s.log ++ l
        ∧ capture_step cfg.out_raw_file_path s.recording (cycle cfg c s).recording l)
    ∧ alternates false
        ((session_loop cfg a do_retry (open_camera cfg a).1).log.filter Request.is_capture)
        = true
    ∧ alternates false
        ((teardown cfg a (session_loop cfg a do_retry (open_camera cfg a).1)).log.filter
          Request.is_capture) = true := by
  refine ⟨fun c s => ⟨cycle_requests cfg c s, cycle_log cfg c s, cycle_capture_step cfg c s⟩,
    session_loop_alternates cfg a do_retry, ?_⟩
  have htail : (((if cd_events_cb_id cfg a ≥ 0
      then [Request.cd_remove_callback (cd_events_cb_id cfg a)] else []) ++ [Request.stop]).filter
      Request.is_capture) = [] := by
    split_ifs <;> simp [Request.is_capture]
  rw [teardown_eq]
  simp only [List.append_assoc, List.filter_append] at htail ⊢
  rw [htail, List.append_nil]
  exact session_loop_alternates cfg a do_retry

/-! ## Record-only mode (C7) -/

theorem control_loop_record_only (cfg : Config) (cs : List Cycle) (s : State)
    (hr : cfg.record_only = true) (hrun : s.running = true) :
    (control_loop cfg cs s).log =
        s.log ++ (if s.recording = true ∧
                      (processed_record_only cs).any (fun c => c.key == KEY_q) = true
                  then [.stop_recording] else [])
    ∧ (control_loop cfg cs s).running = !(cs.any (fun c => c.ends)) := by
  induction cs generalizing s with
  | nil => simp [control_loop, processed_record_only, hrun]
  | cons c cs ih =>
    simp only [control_loop, hrun, if_true]
    cases hends : c.ends
    · have hrun1 : (cycle cfg c s).running = true := by
        rw [cycle_record_only_eq cfg c s hr]; simp [hrun, hends]
      obtain ⟨hlog, hrunning⟩ := ih (cycle cfg c s) hrun1
      rw [hlog, hrunning]
      rw [cycle_record_only_eq cfg c s hr]
      by_cases hq : c.key = KEY_q <;> cases hrec : s.recording <;>
        simp [processed_record_only, hends, hq, hrec]
    · have hrun1 : (cycle cfg c s).running = false := by
        rw [cycle_record_only_eq cfg c s hr]; simp [hends]
      rw [control_loop_not_running cfg cs _ hrun1, cycle_record_only_eq cfg c s hr]
      by_cases hq : c.key = KEY_q <;> cases hrec : s.recording <;>
        simp [processed_record_only, hends, hq, hrec]

theorem cycle_ends_not_running (cfg : Config) (c : Cycle) (s : State) (hends : c.ends = true) :
    (cycle cfg c s).running = false := by
  unfold cycle
  simp [hends]

/-- The control loop goes through the cycles up to the first one that ends the session and
through no other (in either mode). -/
theorem control_loop_processed_record_only (cfg : Config) (cs : List Cycle) (s : State) :
    control_loop cfg cs s = control_loop cfg (processed_record_only cs) s := by
  induction cs generalizing s with
  | nil => rfl
  | cons c cs ih =>
    by_cases hrun : s.running = true
    · cases hends : c.ends
      · simp only [processed_record_only, hends, Bool.false_eq_true, if_false, control_loop,
          hrun, if_true]
        exact ih _
      · simp only [processed_record_only, hends, if_true, control_loop, hrun]
        exact control_loop_not_running cfg cs _ (cycle_ends_not_running cfg c s hends)
    · have h0 : s.running = false := by simpa using hrun
      rw [control_loop_not_running cfg _ s h0, control_loop_not_running cfg _ s h0]

theorem processed_record_only_of_no_end (pre : List Cycle)
    (hpre : ∀ x ∈ pre, x.ends = false) (cs : List Cycle) :
    processed_record_only (pre ++ cs) = pre ++ processed_record_only cs := by
  induction pre with
  | nil => rfl
  | cons x pre ih =>
    have hx : x.ends = false := hpre x (List.mem_cons_self x pre)
    simp [processed_record_only, hx, ih (fun y hy => hpre y (List.mem_cons_of_mem x hy))]

/-- C7: in record-only mode the session starts with exactly one start-capture request, on the
output path, after which it is running and recording. For every list of cycles the control
loop adds to the requests a single stop-capture when a cycle it goes through has key q and
nothing otherwise (no stop, ROI or further capture request, whatever the keys), and it has
exited exactly when some cycle found the session no longer running. When the first q comes
in cycle `c`, after cycles `pre` that neither carry q nor end the session, no request has
been made before `c`, the stop-capture is made in `c`, and no request follows it. -/
theorem C7_record_only_session (cfg : Config) (a : Attempt) (do_retry : Bool)
    (opened : List Request) (pre post : List Cycle) (c : Cycle)
    (hr : cfg.record_only = true)
    (hcycles : a.cycles = pre ++ c :: post)
    (hpre : ∀ x ∈ pre, x.key ≠ KEY_q ∧ x.ends = false)
    (hkey : c.key = KEY_q) :
    session_start cfg do_retry opened =
        { do_retry := do_retry, recording := true, is_roi_set := true, running := true,
          log := opened ++ [.add_runtime_error_callback, .start,
                            .start_recording cfg.out_raw_file_path] }
    ∧ (∀ cs : List Cycle,
        (control_loop cfg cs (session_start cfg do_retry opened)).log =
          opened ++ [.add_runtime_error_callback, .start,
                     .start_recording cfg.out_raw_file_path]
            ++ (if (processed_record_only cs).any (fun x => x.key == KEY_q) = true
                then [.stop_recording] else []))
    ∧ (∀ cs : List Cycle,
        (control_loop cfg cs (session_start cfg do_retry opened)).running
          = !(cs.any (fun x => x.ends)))
    ∧ (∀ cs : List Cycle,
        control_loop cfg cs (session_start cfg do_retry opened)
          = control_loop cfg (processed_record_only cs) (session_start cfg do_retry opened))
    ∧ (control_loop cfg pre (session_start cfg do_retry opened)).log =
        opened ++ [.add_runtime_error_callback, .start,
                   .start_recording cfg.out_raw_file_path]
    ∧ (control_loop cfg (pre ++ [c]) (session_start cfg do_retry opened)).log =
        opened ++ [.add_runtime_error_callback, .start,
                   .start_recording cfg.out_raw_file_path, .stop_recording]
    ∧ (session_loop cfg a do_retry opened).log =
        opened ++ [.add_runtime_error_callback, .start,
                   .start_recording cfg.out_raw_file_path, .stop_recording] := by
  have hstart := session_start_record_only cfg do_retry opened hr
  have hloop : ∀ cs : List Cycle,
      (control_loop cfg cs (session_start cfg do_retry opened)).log =
        opened ++ [.add_runtime_error_callback, .start,
                   .start_recording cfg.out_raw_file_path]
          ++ (if (processed_record_only cs).any (fun x => x.key == KEY_q) = true
              then [.stop_recording] else []) := by
    intro cs
    rw [(control_loop_record_only cfg cs _ hr (by rw [hstart])).1, hstart]
    simp
  have hnoend : ∀ x ∈ pre, x.ends = false := fun x hx => (hpre x hx).2
  have hnoq : pre.any (fun x => x.key == KEY_q) = false := by
    rw [List.any_eq_false]
    intro x hx
    simpa using (hpre x hx).1
  have hpre0 : processed_record_only pre = pre := by
    simpa [processed_record_only] using processed_record_only_of_no_end pre hnoend []
  have hq : ∀ tail : List Cycle,
      (processed_record_only (pre ++ c :: tail)).any (fun x => x.key == KEY_q) = true := by
    intro tail
    rw [processed_record_only_of_no_end pre hnoend]
    simp only [processed_record_only]
    split_ifs <;> simp [hkey]
  refine ⟨hstart, hloop, ?_, fun cs => control_loop_processed_record_only cfg cs _, ?_, ?_, ?_⟩
  · intro cs
    exact (control_loop_record_only cfg cs _ hr (by rw [hstart])).2
  · rw [hloop, hpre0, hnoq]
    simp
  · rw [hloop, hq []]
    simp
  · unfold session_loop
    rw [hloop, hcycles, hq post]
    simp

/-- C7, on a sample: Escape, then q, then Space and a second q; the only request of the loop
is the stop-capture of the first q. -/
theorem C7_record_only_session_witness :
    (session_loop sample_record_only
        (sample_attempt [⟨false, ESCAPE, false⟩, ⟨false, KEY_q, false⟩, ⟨false, SPACE, false⟩,
          ⟨false, KEY_q, true⟩]) false [.from_first_available]).log =
      [.from_first_available] ++ [.add_runtime_error_callback, .start,
        .start_recording sample_record_only.out_raw_file_path, .stop_recording] :=
  (C7_record_only_session sample_record_only
    (sample_attempt [⟨false, ESCAPE, false⟩, ⟨false, KEY_q, false⟩, ⟨false, SPACE, false⟩,
      ⟨false, KEY_q, true⟩]) false [.from_first_available]
    [⟨false, ESCAPE, false⟩] [⟨false, SPACE, false⟩, ⟨false, KEY_q, true⟩]
    ⟨false, KEY_q, false⟩ (by decide) (by decide) (by decide) (by decide)).2.2.2.2.2.2

/-! ## Order of unsubscribe and stop (C8) -/

theorem cycle_requests_no_unsubscribe (cfg : Config) (c : Cycle) (s : State) (r : Request)
    (hr : r ∈ cycle_requests cfg c s) (id : Int) : r ≠ .cd_remove_callback id := by
  unfold cycle_requests at hr
  split_ifs at hr <;> simp at hr <;>
    first
    | (subst hr; simp [roi_request])
    | (rcases hr with h | h <;> subst h <;> simp)

theorem cycle_requests_stop_display (cfg : Config) (c : Cycle) (s : State)
    (hd : cfg.record_only = false) :
    Request.stop ∈ cycle_requests cfg c s ↔ c.quits = true := by
  unfold cycle_requests Cycle.quits
  simp only [hd, Bool.false_eq_true, if_false]
  split_ifs with hq he hs hr h0 <;> simp_all [roi_request]

theorem cycle_running_display (cfg : Config) (c : Cycle) (s : State)
    (hd : cfg.record_only = false) (hrun : s.running = true) :
    (cycle cfg c s).running = !(c.quits || c.ends) := by
  rw [cycle_display cfg c s hd]
  simp only [err_fields, ends_fields]
  cases hq : c.quits
  · rw [(switch_display_nonquit cfg c.key _ hq).2]
    simp [hrun]
  · simp only [Cycle.quits, Bool.or_eq_true, beq_iff_eq] at hq
    rcases hq with h | h
    · rw [h, switch_display_q]; simp
    · rw [h, switch_display_ESCAPE]; simp

theorem control_loop_display_stop (cfg : Config) (cs : List Cycle) (s : State)
    (hd : cfg.record_only = false) (hrun : s.running = true) :
    ∃ l, (control_loop cfg cs s).log = s.log ++ l
      ∧ (∀ r ∈ l, ∀ id, r ≠ Request.cd_remove_callback id)
      ∧ (Request.stop ∈ l ↔ (processed_display cs).any Cycle.quits = true) := by
  induction cs generalizing s with
  | nil => exact ⟨[], by simp [control_loop], by simp, by simp [processed_display]⟩
  | cons c cs ih =>
    simp only [control_loop, hrun, if_true]
    have hstop := cycle_requests_stop_display cfg c s hd
    have hrunning := cycle_running_display cfg c s hd hrun
    cases hqe : (c.quits || c.ends)
    · rw [hqe] at hrunning
      obtain ⟨l2, hlog, hnorm, hiff⟩ := ih (cycle cfg c s) hrunning
      have hq : c.quits = false := by
        cases h : c.quits
        · rfl
        · simp [h] at hqe
      have hends : c.ends = false := by
        cases h : c.ends
        · rfl
        · simp [h] at hqe
      refine ⟨cycle_requests cfg c s ++ l2, ?_, ?_, ?_⟩
      · rw [hlog, cycle_log, List.append_assoc]
      · intro r hr id
        rcases List.mem_append.mp hr with h | h
        · exact cycle_requests_no_unsubscribe cfg c s r h id
        · exact hnorm r h id
      · rw [List.mem_append, hiff, hstop]
        simp [processed_display, hends, hq]
    · rw [hqe] at hrunning
      refine ⟨cycle_requests cfg c s, ?_, ?_, ?_⟩
      · rw [control_loop_not_running cfg cs _ hrunning, cycle_log]
      · exact fun r hr id => cycle_requests_no_unsubscribe cfg c s r hr id
      · rw [hstop]
        simp [processed_display, hqe]

/-- In display mode the control loop goes through the cycles up to the first one that
dispatches q or Escape or ends the session, and through no other. -/
theorem control_loop_processed_display (cfg : Config) (cs : List Cycle) (s : State)
    (hd : cfg.record_only = false) :
    control_loop cfg cs s = control_loop cfg (processed_display cs) s := by
  induction cs generalizing s with
  | nil => rfl
  | cons c cs ih =>
    by_cases hrun : s.running = true
    · cases hqe : (c.quits || c.ends)
      · simp only [processed_display, hqe, Bool.false_eq_true, if_false, control_loop, hrun,
          if_true]
        exact ih _
      · simp only [processed_display, hqe, if_true, control_loop, hrun]
        exact control_loop_not_running cfg cs _
          (by rw [cycle_running_display cfg c s hd hrun, hqe]; rfl)
    · have h0 : s.running = false := by simpa using hrun
      rw [control_loop_not_running cfg _ s h0, control_loop_not_running cfg _ s h0]

theorem no_stop_before_unsubscribe_append (l : List Request) (id : Int)
    (hl : ∀ r ∈ l, ∀ i, r ≠ Request.cd_remove_callback i) :
    no_stop_before_unsubscribe (l ++ [.cd_remove_callback id, .stop]) = !decide (.stop ∈ l) := by
  induction l with
  | nil => simp [no_stop_before_unsubscribe]
  | cons x l ih =>
    have ih1 := ih (fun r hr i => hl r (List.mem_cons_of_mem x hr) i)
    have hx := hl x (List.mem_cons_self x l)
    cases x <;> simp_all [no_stop_before_unsubscribe]

theorem no_stop_before_unsubscribe_stop (l : List Request)
    (hl : ∀ r ∈ l, ∀ i, r ≠ Request.cd_remove_callback i) :
    no_stop_before_unsubscribe (l ++ [.stop]) = false := by
  induction l with
  | nil => simp [no_stop_before_unsubscribe]
  | cons x l ih =>
    have ih1 := ih (fun r hr i => hl r (List.mem_cons_of_mem x hr) i)
    have hx := hl x (List.mem_cons_self x l)
    cases x <;> simp_all [no_stop_before_unsubscribe]

/-- C8, as stated, fails when the control loop ends through Escape: the stop request of the
key handler is made first, and the CD callback is removed only afterwards, in the teardown,
which then stops the camera a second time. -/
theorem C8_escape_stops_before_unsubscribe :
    body sample_display (sample_attempt [⟨false, ESCAPE, false⟩]) 0 false =
      ([.construct 0, .request 0 .from_first_available,
        .request 0 (.roi_set 10 10 100 100), .request 0 .add_runtime_error_callback,
        .request 0 .cd_add_callback, .request 0 .start,
        .request 0 .stop, .request 0 (.cd_remove_callback 0), .request 0 .stop,
        .destroy 0], .cond false)
    ∧ no_stop_before_unsubscribe
        (teardown sample_display (sample_attempt [⟨false, ESCAPE, false⟩])
          (session_loop sample_display (sample_attempt [⟨false, ESCAPE, false⟩]) false
            (open_camera sample_display (sample_attempt [⟨false, ESCAPE, false⟩])).1)).log
        = false := by
  decide

/-- C8 (amended): for every display-mode session whose control loop has exited, the teardown
ends with a stop request, the last request on the camera before it is destroyed, directly
preceded by the removal of the CD callback when the callback id narrowed to `int` is not
negative; with a negative id the removal is skipped. The removal comes before every stop
request exactly when the id is not negative and no cycle the loop went through dispatched q
or Escape, that is when the session ceased to run by itself. After q or Escape the stop
request of the key handler comes before the removal. -/
theorem C8_teardown_order (cfg : Config) (a : Attempt) (cam : Nat) (do_retry : Bool)
    (hd : cfg.record_only = false)
    (hconf : ¬ (cfg.in_raw_file_path ≠ "" ∧ cfg.serial ≠ ""))
    (hopen : (open_camera cfg a).2 = true)
    (hexit : (session_loop cfg a do_retry (open_camera cfg a).1).running = false) :
    body cfg a cam do_retry =
        ([.construct cam]
          ++ on_cam cam ((session_loop cfg a do_retry (open_camera cfg a).1).log
              ++ (if narrow_to_int a.cb_id ≥ 0
                  then [.cd_remove_callback (narrow_to_int a.cb_id)] else [])
              ++ [.stop])
          ++ [.destroy cam],
         .cond ((session_loop cfg a do_retry (open_camera cfg a).1).do_retry || a.err_late))
    ∧ session_loop cfg a do_retry (open_camera cfg a).1 =
        control_loop cfg (processed_display a.cycles)
          (session_start cfg do_retry (open_camera cfg a).1)
    ∧ no_stop_before_unsubscribe
        ((session_loop cfg a do_retry (open_camera cfg a).1).log
          ++ (if narrow_to_int a.cb_id ≥ 0
              then [.cd_remove_callback (narrow_to_int a.cb_id)] else [])
          ++ [.stop])
        = (decide (narrow_to_int a.cb_id ≥ 0)
            && !((processed_display a.cycles).any Cycle.quits)) := by
  refine ⟨?_, control_loop_processed_display cfg a.cycles _ hd, ?_⟩
  · rw [body_exited cfg a cam do_retry hconf hopen hexit, cd_events_cb_id_display cfg a hd]
  · have hstart := session_start_display cfg do_retry (open_camera cfg a).1 hd
    obtain ⟨l, hlog, hnorm, hiff⟩ := control_loop_display_stop cfg a.cycles
      (session_start cfg do_retry (open_camera cfg a).1) hd (by rw [hstart])
    unfold session_loop
    rw [hlog, hstart]
    have hall : ∀ r ∈ (open_camera cfg a).1
        ++ [Request.add_runtime_error_callback, Request.cd_add_callback, Request.start] ++ l,
        ∀ i, r ≠ Request.cd_remove_callback i := by
      intro r hr i
      simp only [List.mem_append, List.mem_cons, List.mem_singleton, List.not_mem_nil,
        or_false] at hr
      rcases hr with (h | h | h | h) | h
      · exact (open_camera_requests cfg a r h).2.2 i
      · subst h; simp
      · subst h; simp
      · subst h; simp
      · exact hnorm r h i
    have hmem : Request.stop ∈ (open_camera cfg a).1
        ++ [Request.add_runtime_error_callback, Request.cd_add_callback, Request.start] ++ l
        ↔ Request.stop ∈ l := by
      simp only [List.mem_append, List.mem_cons, List.mem_singleton, List.not_mem_nil,
        or_false]
      constructor
      · rintro ((h | h | h | h) | h)
        · exact absurd rfl ((open_camera_requests cfg a _ h).2.1)
        · cases h
        · cases h
        · cases h
        · exact h
      · exact fun h => Or.inr h
    by_cases hid : narrow_to_int a.cb_id ≥ 0
    · rw [if_pos hid, List.append_assoc, List.singleton_append,
        no_stop_before_unsubscribe_append _ _ hall, decide_eq_true hid, Bool.true_and]
      cases hany : (processed_display a.cycles).any Cycle.quits
      · have : Request.stop ∉ l := fun h => by simp [hiff.mp h] at hany
        rw [decide_eq_false (fun h => this (hmem.mp h))]
      · have : Request.stop ∈ l := hiff.mpr hany
        rw [decide_eq_true (hmem.mpr this)]
    · rw [if_neg hid, List.append_nil, no_stop_before_unsubscribe_stop _ hall,
        decide_eq_false hid, Bool.false_and]

/-- C8 (amended), on a sample: a display session that ends by itself after a Space key; the
removal of the callback precedes the only stop request. -/
theorem C8_teardown_order_witness :
    no_stop_before_unsubscribe
        ((session_loop sample_display (sample_attempt [⟨false, SPACE, true⟩]) false
            (open_camera sample_display (sample_attempt [⟨false, SPACE, true⟩])).1).log
          ++ (if narrow_to_int (sample_attempt [⟨false, SPACE, true⟩]).cb_id ≥ 0
              then [.cd_remove_callback
                      (narrow_to_int (sample_attempt [⟨false, SPACE, true⟩]).cb_id)]
              else [])
          ++ [.stop])
      = (decide (narrow_to_int (sample_attempt [⟨false, SPACE, true⟩]).cb_id ≥ 0)
          && !((processed_display (sample_attempt [⟨false, SPACE, true⟩]).cycles).any
                Cycle.quits)) :=
  (C8_teardown_order sample_display (sample_attempt [⟨false, SPACE, true⟩]) 0 false
    (by decide) (by decide) (by decide) (by decide)).2.2

end MetavisionViewer
